import Mathlib

/-!
Shallow embedding of the `teacup` repository: the filetree bubble
(`src/unnamed/part_000`, Go package `filetree`) and the help bubble
(`src/help/help.go`, Go package `help`).

The repository's own code under `src/` consists of `Bubble.Update`,
`Bubble.GetSelectedItem`, `Bubble.SetSize`/`SetBorderColor` for the
filetree, and the whole `help` package.  The supporting declarations of
the filetree package (the `Bubble` struct, the session-state enum, the
key bindings, the command constructors, the status-message styles and
the `dirfs` constants) live in files of this repository that are not
under `src/`; those are modelled from the specification and are marked
as such in their doc comments.  The third-party widgets (bubbles list,
bubbles textinput, bubbletea commands, lipgloss styling) are external
collaborators: their update functions are abstracted as parameters of
`Bubble.Update` (an `Env`), and the few methods the source calls on
them (`SetItems`, `NewStatusMessage`, `SelectedItem`, `Focus`, `Blur`,
`Reset`) are given their documented meaning.
-/

/-! ## Styled status text -/

/-- Kind of styling applied to a status line. -/
inductive StyleKind where
  | info
  | error
  deriving DecidableEq, Repr

/-- A styled piece of status text: the style applied plus the carried text. -/
structure StyledString where
  kind : StyleKind
  text : String
  deriving DecidableEq, Repr

/-- Modelled from the spec: `statusMessageInfoStyle` is defined in the
filetree package outside `src/`; it styles a status line as an
informational message (event `status-info(text)` of spec section 6). -/
def statusMessageInfoStyle (s : String) : StyledString := ⟨StyleKind.info, s⟩

/-- Modelled from the spec: `statusMessageErrorStyle` is defined in the
filetree package outside `src/`; it styles a status line as an error
message (event `status-error(text)` of spec section 6). -/
def statusMessageErrorStyle (s : String) : StyledString := ⟨StyleKind.error, s⟩

/-! ## Commands (`tea.Cmd` values emitted by the bubbles)

`Bubble.Update` returns `tea.Batch(cmds...)`; we return the `cmds`
slice itself as a `List Cmd`, and `tea.Sequentially` is the `Cmd`
constructor `sequentially`, which runs its first command to completion
strictly before its second. -/

/-- The commands the bubbles can emit.  The filesystem commands mirror the
collaborator operations of spec section 6; `widgetCmd` stands for an
opaque internal command returned by a collaborator widget; `blink` is
`textinput.Blink`; `nilCmd` is Go's `nil` command. -/
inductive Cmd where
  | nilCmd
  | getDirectoryListing (dir : String) (showHidden : Bool)
  | copyItem (name : String)
  | zipItem (name : String)
  | unzipItem (name : String)
  | createFile (name : String)
  | createDirectory (name : String)
  | deleteItem (name : String)
  | copyToClipboard (name : String)
  | statusMessage (s : StyledString)
  | blink
  | sequentially (first second : Cmd)
  | widgetCmd (tag : String)
  deriving DecidableEq, Repr

/-- Modelled from the spec: `dirfs.CurrentDirectory`, the path constant
denoting the current directory, re-resolved by the collaborator at
refresh time. -/
def CurrentDirectory : String := "."

/-- Modelled from the spec: `dirfs.HomeDirectory`, the path constant
denoting the user's home directory. -/
def HomeDirectory : String := "~"

/-- Modelled from the spec: `getDirectoryListingCmd` (filetree package,
outside `src/`) requests `list-directory(path, show-hidden)` from the
filesystem helper. -/
def getDirectoryListingCmd (name : String) (showHidden : Bool) : Cmd :=
  Cmd.getDirectoryListing name showHidden

/-- Modelled from the spec: `copyItemCmd` requests `copy(path)`. -/
def copyItemCmd (name : String) : Cmd := Cmd.copyItem name

/-- Modelled from the spec: `zipItemCmd` requests `zip(path)`. -/
def zipItemCmd (name : String) : Cmd := Cmd.zipItem name

/-- Modelled from the spec: `unzipItemCmd` requests `unzip(path)`. -/
def unzipItemCmd (name : String) : Cmd := Cmd.unzipItem name

/-- Modelled from the spec: `createFileCmd` requests `create-file(name)`. -/
def createFileCmd (name : String) : Cmd := Cmd.createFile name

/-- Modelled from the spec: `createDirectoryCmd` requests
`create-directory(name)`. -/
def createDirectoryCmd (name : String) : Cmd := Cmd.createDirectory name

/-- Modelled from the spec: `deleteItemCmd` requests `delete(path)`. -/
def deleteItemCmd (name : String) : Cmd := Cmd.deleteItem name

/-- Modelled from the spec: `copyToClipboardCmd` requests
`copy-to-clipboard(text)`. -/
def copyToClipboardCmd (name : String) : Cmd := Cmd.copyToClipboard name

/-! ## The filetree data model -/

/-- Modelled from the spec: `Item` (data model, spec section 3 `Entry`):
a filesystem item with a display name, path and metadata.  Only
`fileName` is read by the code under `src/`.  `Item.emptyItem` is Go's
zero value `Item{}`. -/
structure Item where
  fileName : String
  path : String
  details : String
  deriving DecidableEq, Repr

/-- The zero value `Item{}` returned on a failed type assertion. -/
def Item.emptyItem : Item := ⟨"", "", ""⟩

/-- An element of the collaborator list widget.  The widget stores values
of an interface type; `fileItem` is the expected filetree `Item`, and
`foreignItem` stands for a value of any unexpected type. -/
inductive ListItem where
  | fileItem (i : Item)
  | foreignItem (tag : String)
  deriving DecidableEq, Repr

/-- State of the collaborator bubbles list widget, as far as the source
observes it: the stored items, the cursor, and the transient status
message. -/
structure ListModel where
  items : List ListItem
  cursor : Nat
  statusMessage : String
  deriving DecidableEq, Repr

/-- The collaborator list's `SelectedItem`: the item under the cursor, or
nothing when the cursor is out of range. -/
def ListModel.SelectedItem (l : ListModel) : Option ListItem :=
  l.items[l.cursor]?

/-- The collaborator list's `SetItems`: replaces the stored items
wholesale and returns an internal widget command. -/
def ListModel.SetItems (l : ListModel) (its : List ListItem) : ListModel × Cmd :=
  ({ l with items := its }, Cmd.widgetCmd "setItems")

/-- The collaborator list's `NewStatusMessage`: records the status line on
the list model and returns the command that surfaces the status
event. -/
def ListModel.NewStatusMessage (l : ListModel) (s : StyledString) : ListModel × Cmd :=
  ({ l with statusMessage := s.text }, Cmd.statusMessage s)

/-- State of the collaborator bubbles textinput widget, as far as the
source observes it. -/
structure TextInput where
  value : String
  focused : Bool
  placeholder : String
  deriving DecidableEq, Repr

/-- The collaborator textinput's `Focus`. -/
def TextInput.Focus (t : TextInput) : TextInput := { t with focused := true }

/-- The collaborator textinput's `Blur`. -/
def TextInput.Blur (t : TextInput) : TextInput := { t with focused := false }

/-- The collaborator textinput's `Reset`: clears the entered text. -/
def TextInput.Reset (t : TextInput) : TextInput := { t with value := "" }

/-- The collaborator textinput's `Focused`. -/
def TextInput.Focused (t : TextInput) : Bool := t.focused

/-- The collaborator textinput's `Value`. -/
def TextInput.Value (t : TextInput) : String := t.value

/-- Setting the collaborator textinput's `Placeholder` field. -/
def TextInput.withPlaceholder (t : TextInput) (p : String) : TextInput :=
  { t with placeholder := p }

/-- Modelled from the spec: the session-state enum of the filetree
package (outside `src/`): `idle`, `createFile`, `createDirectory`,
`deleteConfirm` (spec section 4.1); the source names the constants
`idleState`, `createFileState`, `createDirectoryState`,
`deleteItemState`. -/
inductive SessionState where
  | idleState
  | createFileState
  | createDirectoryState
  | deleteItemState
  deriving DecidableEq, Repr

/-- Modelled from the spec: the key bindings of the filetree package
(outside `src/`); exact bindings are a configuration concern, so keys
are abstract identities, one per binding, plus `otherKey` for any
other key (characters, arrows, ...). -/
inductive KeyType where
  | openDirectoryKey
  | copyItemKey
  | zipItemKey
  | unzipItemKey
  | createFileKey
  | createDirectoryKey
  | deleteItemKey
  | toggleHiddenKey
  | homeShortcutKey
  | copyToClipboardKey
  | escapeKey
  | submitInputKey
  | otherKey (c : String)
  deriving DecidableEq, Repr

/-- The `tea.Msg` values the bubbles receive: the three result messages
of the filetree package, key messages, and any other framework
message. -/
inductive Msg where
  | getDirectoryListingMsg (items : Option (List ListItem))
  | copyToClipboardMsg (s : String)
  | errorMsg (e : String)
  | keyMsg (k : KeyType)
  | otherMsg (tag : String)
  deriving DecidableEq, Repr

/-- The update functions of the collaborator widgets, abstracted: the
bubbles list's `Update` and the textinput's `Update`. -/
structure Env where
  listUpdate : ListModel → Msg → ListModel × Cmd
  inputUpdate : TextInput → Msg → TextInput × Cmd

/-- Modelled from the spec: the `Bubble` struct of the filetree package
(outside `src/`): the list widget, the prompt input widget, the
session state, and the hidden-files flag — the fields `Update` reads
and writes. -/
structure Bubble where
  list : ListModel
  input : TextInput
  state : SessionState
  showHidden : Bool
  deriving Repr

/-- `Bubble.GetSelectedItem` (src/unnamed/part_000 lines 29–36): the
selected list entry if it is of the expected `Item` type, the zero
`Item{}` otherwise. -/
def Bubble.GetSelectedItem (b : Bubble) : Item :=
  match b.list.SelectedItem with
  | some (ListItem.fileItem i) => i
  | _ => Item.emptyItem

/-- Model of Go's `strings.ToLower` on the ASCII range (the source only
compares against the ASCII string "y"). -/
def strToLower (s : String) : String := String.mk (s.data.map Char.toLower)

/-- The trailing `switch b.state` of `Bubble.Update`
(src/unnamed/part_000 lines 194–201): in `idleState` the message is
dispatched to the list widget, in every prompt state to the text
input; the widget's command is appended to the accumulated
commands. -/
def Bubble.stateDispatch (env : Env) (msg : Msg) (b : Bubble) (cmds : List Cmd) :
    Bubble × List Cmd :=
  match b.state with
  | SessionState.idleState =>
    ({ b with list := (env.listUpdate b.list msg).1 },
      cmds ++ [(env.listUpdate b.list msg).2])
  | _ =>
    ({ b with input := (env.inputUpdate b.input msg).1 },
      cmds ++ [(env.inputUpdate b.input msg).2])

/-- `Bubble.Update` (src/unnamed/part_000 lines 39–204), translated
case by case.  Branches that `return` in Go do not reach
`stateDispatch`; every other branch falls through to it. -/
def Bubble.Update (env : Env) (b : Bubble) (msg : Msg) : Bubble × List Cmd :=
  match msg with
  | Msg.getDirectoryListingMsg items =>
    match items with
    | some its =>
      Bubble.stateDispatch env msg
        { b with list := (b.list.SetItems its).1 } [(b.list.SetItems its).2]
    | none => Bubble.stateDispatch env msg b []
  | Msg.copyToClipboardMsg s =>
    ({ b with list := (b.list.NewStatusMessage (statusMessageInfoStyle s)).1 },
      [(b.list.NewStatusMessage (statusMessageInfoStyle s)).2])
  | Msg.errorMsg e =>
    ({ b with list := (b.list.NewStatusMessage (statusMessageErrorStyle e)).1 },
      [(b.list.NewStatusMessage (statusMessageErrorStyle e)).2])
  | Msg.keyMsg k =>
    match k with
    | KeyType.openDirectoryKey =>
      if !b.input.Focused then
        Bubble.stateDispatch env msg b
          [getDirectoryListingCmd b.GetSelectedItem.fileName b.showHidden]
      else Bubble.stateDispatch env msg b []
    | KeyType.copyItemKey =>
      if !b.input.Focused then
        Bubble.stateDispatch env msg
          { b with list :=
              (b.list.NewStatusMessage
                (statusMessageInfoStyle "Successfully copied file")).1 }
          [Cmd.sequentially (copyItemCmd b.GetSelectedItem.fileName)
              (getDirectoryListingCmd CurrentDirectory b.showHidden),
            (b.list.NewStatusMessage
              (statusMessageInfoStyle "Successfully copied file")).2]
      else Bubble.stateDispatch env msg b []
    | KeyType.zipItemKey =>
      if !b.input.Focused then
        Bubble.stateDispatch env msg
          { b with list :=
              (b.list.NewStatusMessage
                (statusMessageInfoStyle "Successfully zipped item")).1 }
          [Cmd.sequentially (zipItemCmd b.GetSelectedItem.fileName)
              (getDirectoryListingCmd CurrentDirectory b.showHidden),
            (b.list.NewStatusMessage
              (statusMessageInfoStyle "Successfully zipped item")).2]
      else Bubble.stateDispatch env msg b []
    | KeyType.unzipItemKey =>
      if !b.input.Focused then
        Bubble.stateDispatch env msg
          { b with list :=
              (b.list.NewStatusMessage
                (statusMessageInfoStyle "Successfully unzipped item")).1 }
          [Cmd.sequentially (unzipItemCmd b.GetSelectedItem.fileName)
              (getDirectoryListingCmd CurrentDirectory b.showHidden),
            (b.list.NewStatusMessage
              (statusMessageInfoStyle "Successfully unzipped item")).2]
      else Bubble.stateDispatch env msg b []
    | KeyType.createFileKey =>
      if !b.input.Focused then
        ({ b with
            input := (b.input.Focus).withPlaceholder "Enter name of new file",
            state := SessionState.createFileState }, [Cmd.blink])
      else Bubble.stateDispatch env msg b []
    | KeyType.createDirectoryKey =>
      if !b.input.Focused then
        ({ b with
            input := (b.input.Focus).withPlaceholder "Enter name of new directory",
            state := SessionState.createDirectoryState }, [Cmd.blink])
      else Bubble.stateDispatch env msg b []
    | KeyType.deleteItemKey =>
      if !b.input.Focused then
        ({ b with
            input :=
              (b.input.Focus).withPlaceholder "Are you sure you want to delete (y/n)?",
            state := SessionState.deleteItemState }, [Cmd.blink])
      else Bubble.stateDispatch env msg b []
    | KeyType.toggleHiddenKey =>
      if !b.input.Focused then
        Bubble.stateDispatch env msg { b with showHidden := !b.showHidden }
          [getDirectoryListingCmd CurrentDirectory (!b.showHidden)]
      else Bubble.stateDispatch env msg b []
    | KeyType.homeShortcutKey =>
      if !b.input.Focused then
        Bubble.stateDispatch env msg b
          [getDirectoryListingCmd HomeDirectory b.showHidden]
      else Bubble.stateDispatch env msg b []
    | KeyType.copyToClipboardKey =>
      if !b.input.Focused then
        Bubble.stateDispatch env msg b
          [copyToClipboardCmd b.GetSelectedItem.fileName]
      else Bubble.stateDispatch env msg b []
    | KeyType.escapeKey =>
      if b.input.Focused then
        Bubble.stateDispatch env msg
          { b with input := (b.input.Reset).Blur, state := SessionState.idleState } []
      else Bubble.stateDispatch env msg b []
    | KeyType.submitInputKey =>
      match b.state with
      | SessionState.idleState => (b, [])
      | SessionState.createFileState =>
        Bubble.stateDispatch env msg
          { b with
            list :=
              (b.list.NewStatusMessage
                (statusMessageInfoStyle "Successfully created file")).1,
            input := (b.input.Blur).Reset }
          [Cmd.sequentially (createFileCmd b.input.Value)
              (getDirectoryListingCmd CurrentDirectory b.showHidden),
            (b.list.NewStatusMessage
              (statusMessageInfoStyle "Successfully created file")).2]
      | SessionState.createDirectoryState =>
        Bubble.stateDispatch env msg
          { b with
            list :=
              (b.list.NewStatusMessage
                (statusMessageInfoStyle "Successfully created directory")).1,
            input := (b.input.Blur).Reset }
          [(b.list.NewStatusMessage
              (statusMessageInfoStyle "Successfully created directory")).2,
            Cmd.sequentially (createDirectoryCmd b.input.Value)
              (getDirectoryListingCmd CurrentDirectory b.showHidden)]
      | SessionState.deleteItemState =>
        if strToLower b.input.Value = "y" then
          Bubble.stateDispatch env msg
            { b with
              list :=
                (b.list.NewStatusMessage
                  (statusMessageInfoStyle "Successfully deleted item")).1,
              input := (b.input.Blur).Reset }
            [(b.list.NewStatusMessage
                (statusMessageInfoStyle "Successfully deleted item")).2,
              Cmd.sequentially (deleteItemCmd b.GetSelectedItem.fileName)
                (getDirectoryListingCmd CurrentDirectory b.showHidden)]
        else
          Bubble.stateDispatch env msg
            { b with input := (b.input.Blur).Reset } []
    | KeyType.otherKey _ => Bubble.stateDispatch env msg b []
  | Msg.otherMsg _ => Bubble.stateDispatch env msg b []

/-! ## The help bubble (src/help/help.go) -/

/-- `TitleColor` (src/help/help.go lines 18–21); the lipgloss adaptive
colors are rendered here as their specification strings. -/
structure TitleColor where
  background : String
  foreground : String
  deriving DecidableEq, Repr

/-- `Entry` (src/help/help.go lines 24–27): a single help entry. -/
structure HelpEntry where
  key : String
  description : String
  deriving DecidableEq, Repr

/-- `keyWidth` (src/help/help.go line 15): the fixed width of the key
column. -/
def keyWidth : Nat := 12

/-- Modelled from the spec: the lipgloss collaborator's fixed-width cell
rendering — the text padded on the right to the requested width
(spec section 4.4, "fixed-width two-column block"). -/
def renderFixedWidth (w : Nat) (s : String) : String :=
  s ++ String.mk (List.replicate (w - s.length) ' ')

/-- Modelled from the spec: the lipgloss collaborator's title banner —
a deterministic function of the title colors and the title text. -/
def renderTitle (c : TitleColor) (title : String) : String :=
  "<" ++ c.background ++ "|" ++ c.foreground ++ ">" ++ title

/-- Modelled from the spec: the lipgloss collaborator's width/height
block rendering — every line padded to the width, the line count
padded to the height. -/
def renderBox (width height : Nat) (s : String) : String :=
  let padded := (s.splitOn "\n").map (renderFixedWidth width)
  String.intercalate "\n"
    (padded ++ List.replicate (height - padded.length) (renderFixedWidth width ""))

/-- `generateHelpScreen` (src/help/help.go lines 41–79): one two-column
row per entry, each terminated by a newline, joined vertically under
the rendered title, inside a width/height block. -/
def generateHelpScreen (title : String) (titleColor : TitleColor)
    (entries : List HelpEntry) (width height : Nat) : String :=
  let helpScreen := entries.foldl
    (fun acc content =>
      acc ++ (renderFixedWidth keyWidth content.key ++ content.description) ++ "\n")
    ""
  renderBox width height (renderTitle titleColor title ++ "\n" ++ helpScreen)

/-- State of the collaborator viewport widget, as far as the source
observes it. -/
structure Viewport where
  width : Nat
  height : Nat
  content : String
  yOffset : Nat
  deriving DecidableEq, Repr

/-- `Model` (src/help/help.go lines 30–38): the help bubble's fields. -/
structure HelpModel where
  viewport : Viewport
  entries : List HelpEntry
  borderColor : String
  title : String
  titleColor : TitleColor
  active : Bool
  borderless : Bool
  deriving DecidableEq, Repr

/-- The update function of the collaborator viewport widget,
abstracted. -/
structure HelpEnv where
  viewportUpdate : Viewport → Msg → Viewport × Cmd

/-- `Model.Update` (src/help/help.go lines 151–163): when the bubble is
active the message is forwarded to the viewport and its command
batched; when inactive nothing is touched and the batch is empty. -/
def HelpModel.Update (env : HelpEnv) (m : HelpModel) (msg : Msg) :
    HelpModel × List Cmd :=
  if m.active then
    ({ m with viewport := (env.viewportUpdate m.viewport msg).1 },
      [(env.viewportUpdate m.viewport msg).2])
  else (m, [])

/-! ## Command predicates used by the claim statements -/

/-- Number of directory-refresh requests inside a command (counting
through `sequentially`). -/
def Cmd.refreshCount : Cmd → Nat
  | Cmd.getDirectoryListing _ _ => 1
  | Cmd.sequentially a b => a.refreshCount + b.refreshCount
  | _ => 0

/-- Number of mutating filesystem operations inside a command (copy,
zip, unzip, create-file, create-directory, delete). -/
def Cmd.mutationCount : Cmd → Nat
  | Cmd.copyItem _ => 1
  | Cmd.zipItem _ => 1
  | Cmd.unzipItem _ => 1
  | Cmd.createFile _ => 1
  | Cmd.createDirectory _ => 1
  | Cmd.deleteItem _ => 1
  | Cmd.sequentially a b => a.mutationCount + b.mutationCount
  | _ => 0

/-- Number of delete operations inside a command. -/
def Cmd.deleteCount : Cmd → Nat
  | Cmd.deleteItem _ => 1
  | Cmd.sequentially a b => a.deleteCount + b.deleteCount
  | _ => 0

/-- Whether a command is a status-message event. -/
def Cmd.isStatusCmd : Cmd → Bool
  | Cmd.statusMessage _ => true
  | _ => false

/-- Whether a command carries a mutating filesystem operation. -/
def Cmd.hasMutation (c : Cmd) : Bool := c.mutationCount ≠ 0

/-- Whether a command is one a collaborator widget may return: Go's
`nil`, the cursor-blink tick, or an opaque internal widget command. -/
def Cmd.isWidgetOnly : Cmd → Bool
  | Cmd.nilCmd => true
  | Cmd.blink => true
  | Cmd.widgetCmd _ => true
  | _ => false

/-- Total number of directory-refresh requests in an emitted command
batch. -/
def refreshTotal (cs : List Cmd) : Nat := (cs.map Cmd.refreshCount).sum

/-- Total number of mutating filesystem operations in an emitted command
batch. -/
def mutationTotal (cs : List Cmd) : Nat := (cs.map Cmd.mutationCount).sum

/-- Total number of delete operations in an emitted command batch. -/
def deleteTotal (cs : List Cmd) : Nat := (cs.map Cmd.deleteCount).sum

/-- Reading of "the status message follows the mutate-and-refresh pair"
on an emitted batch: the first command carrying a mutation occurs
strictly before the first status-message command. -/
def statusFollowsPair (cs : List Cmd) : Bool :=
  match cs.findIdx? Cmd.hasMutation, cs.findIdx? Cmd.isStatusCmd with
  | some i, some j => decide (i < j)
  | _, _ => false

/-! ## Collaborator contracts

The widgets are external; the theorems that need facts about them state
those facts as hypotheses, each one part of the widget's documented
contract. -/

/-- The collaborator widgets' update functions only return widget-internal
commands — they never issue filesystem operations themselves. -/
def EnvWidgetCmdsOnly (env : Env) : Prop :=
  (∀ l m, ((env.listUpdate l m).2).isWidgetOnly = true) ∧
  (∀ t m, ((env.inputUpdate t m).2).isWidgetOnly = true)

/-- The collaborator textinput's update never changes its own focus. -/
def EnvInputKeepsFocus (env : Env) : Prop :=
  ∀ t m, ((env.inputUpdate t m).1).focused = t.focused

/-- The collaborator list's update never replaces the stored items (only
`SetItems` does). -/
def EnvListKeepsItems (env : Env) : Prop :=
  ∀ l m, ((env.listUpdate l m).1).items = l.items

/-- The collaborator textinput ignores messages while blurred (its update
returns the model unchanged when it is not focused). -/
def EnvInputInertWhenBlurred (env : Env) : Prop :=
  ∀ t m, t.focused = false → (env.inputUpdate t m).1 = t

/-! ## Concrete data for witnesses and counterexamples -/

/-- A trivial concrete environment: both widgets ignore messages and
return Go's `nil` command. -/
def envTriv : Env :=
  { listUpdate := fun l _ => (l, Cmd.nilCmd),
    inputUpdate := fun t _ => (t, Cmd.nilCmd) }

/-- A probing concrete environment: the list widget's update marks the
list model and returns a tagged widget command, making any dispatch
to the listing observable. -/
def envProbe : Env :=
  { listUpdate := fun l _ => ({ l with statusMessage := "probed" }, Cmd.widgetCmd "listProbe"),
    inputUpdate := fun t _ => (t, Cmd.nilCmd) }

/-- A trivial concrete help environment. -/
def helpEnvTriv : HelpEnv := { viewportUpdate := fun v _ => (v, Cmd.nilCmd) }

/-- A concrete listed item. -/
def sampleItem : Item := ⟨"a.txt", "/tmp/a.txt", "file"⟩

/-- A concrete idle bubble with one selected item. -/
def idleBubble : Bubble :=
  { list := { items := [ListItem.fileItem sampleItem], cursor := 0, statusMessage := "" },
    input := { value := "", focused := false, placeholder := "" },
    state := SessionState.idleState,
    showHidden := false }

/-- A concrete bubble amid the create-file prompt. -/
def createFileBubble : Bubble :=
  { idleBubble with
    state := SessionState.createFileState,
    input := { value := "a.txt", focused := true, placeholder := "Enter name of new file" } }

/-- A concrete bubble amid the create-directory prompt. -/
def createDirBubble : Bubble :=
  { idleBubble with
    state := SessionState.createDirectoryState,
    input := { value := "newdir", focused := true, placeholder := "Enter name of new directory" } }

/-- A concrete bubble amid the delete-confirmation prompt, with the given
entered text. -/
def deleteBubble (v : String) : Bubble :=
  { idleBubble with
    state := SessionState.deleteItemState,
    input := { value := v, focused := true, placeholder := "Are you sure you want to delete (y/n)?" } }

/-- A concrete bubble whose list selection is of an unexpected type. -/
def foreignSelBubble : Bubble :=
  { idleBubble with
    list := { items := [ListItem.foreignItem "statusEntry"], cursor := 0, statusMessage := "" } }

/-- A concrete bubble with nothing selected (cursor out of range of an
empty listing). -/
def noSelBubble : Bubble :=
  { idleBubble with list := { items := [], cursor := 0, statusMessage := "" } }

/-- The bubble after pressing the create-file key on `idleBubble`. -/
def afterCreateKey : Bubble :=
  (Bubble.Update envTriv idleBubble (Msg.keyMsg KeyType.createFileKey)).1

/-- The bubble after then pressing the submit key. -/
def afterSubmit : Bubble :=
  (Bubble.Update envTriv afterCreateKey (Msg.keyMsg KeyType.submitInputKey)).1

/-- A concrete inactive help bubble. -/
def inactiveHelp : HelpModel :=
  { viewport := { width := 20, height := 10, content := "", yOffset := 0 },
    entries := [⟨"q", "quit"⟩],
    borderColor := "#ffffff",
    title := "Help",
    titleColor := ⟨"#000000", "#ffffff"⟩,
    active := false,
    borderless := false }

/-- The single widget command appended by `Bubble.stateDispatch`: the
list widget's in `idleState`, the text input's in every prompt
state. -/
def dispatchCmd (env : Env) (msg : Msg) (b : Bubble) : Cmd :=
  match b.state with
  | SessionState.idleState => (env.listUpdate b.list msg).2
  | _ => (env.inputUpdate b.input msg).2

/-! ## Helper lemmas -/

/-- A widget-internal command requests no refresh, no mutation and no
delete. -/
theorem widgetOnly_counts {c : Cmd} (h : c.isWidgetOnly = true) :
    c.refreshCount = 0 ∧ c.mutationCount = 0 ∧ c.deleteCount = 0 := by
  cases c <;>
    simp_all [Cmd.isWidgetOnly, Cmd.refreshCount, Cmd.mutationCount, Cmd.deleteCount]

/-- `stateDispatch` appends exactly the dispatched widget's command. -/
theorem stateDispatch_snd (env : Env) (msg : Msg) (b : Bubble) (cmds : List Cmd) :
    (Bubble.stateDispatch env msg b cmds).2 = cmds ++ [dispatchCmd env msg b] := by
  obtain ⟨bl, bi, bs, bh⟩ := b
  cases bs <;> rfl

/-- Under the widget contract, the dispatched command is
widget-internal. -/
theorem dispatchCmd_widgetOnly {env : Env} (henv : EnvWidgetCmdsOnly env)
    (msg : Msg) (b : Bubble) : (dispatchCmd env msg b).isWidgetOnly = true := by
  obtain ⟨bl, bi, bs, bh⟩ := b
  cases bs
  · exact henv.1 _ _
  · exact henv.2 _ _
  · exact henv.2 _ _
  · exact henv.2 _ _

/-! ## Claims -/

/-- C8: the help-screen generation is deterministic — two calls of
`generateHelpScreen` with identical title, title color, entries,
width and height produce identical text.  In the embedding
`generateHelpScreen` is a pure function of exactly these five
arguments (it reads no other state), so the two runs coincide. -/
theorem C8_generateHelpScreen_deterministic (title : String) (c : TitleColor)
    (entries : List HelpEntry) (width height : Nat) :
    generateHelpScreen title c entries width height =
      generateHelpScreen title c entries width height := rfl

/-- C9: when the help bubble's `active` flag is false, `Update` returns
the model with every field unchanged — in particular the viewport is
not updated — and no command beyond an empty batch. -/
theorem C9_inactive_help_ignores_updates (env : HelpEnv) (m : HelpModel)
    (msg : Msg) (h : m.active = false) :
    HelpModel.Update env m msg = (m, []) := by
  simp [HelpModel.Update, h]

/-- Witness for C9 at a concrete inactive help bubble and message. -/
theorem C9_inactive_help_ignores_updates_witness :
    HelpModel.Update helpEnvTriv inactiveHelp (Msg.otherMsg "resize")
      = (inactiveHelp, []) :=
  C9_inactive_help_ignores_updates helpEnvTriv inactiveHelp (Msg.otherMsg "resize") rfl

/-- C10: `GetSelectedItem` returns the entry under the cursor when the
underlying selection is of the expected `Item` type, and the empty
`Item` value when nothing is selected or the selection is of an
unexpected type (it is a total function — no panic is possible). -/
theorem C10_GetSelectedItem_total (b : Bubble) :
    (∀ i : Item, b.list.SelectedItem = some (ListItem.fileItem i) →
      b.GetSelectedItem = i) ∧
    (b.list.SelectedItem = Option.none → b.GetSelectedItem = Item.emptyItem) ∧
    (∀ t : String, b.list.SelectedItem = some (ListItem.foreignItem t) →
      b.GetSelectedItem = Item.emptyItem) := by
  refine ⟨fun i h => ?_, fun h => ?_, fun t h => ?_⟩ <;>
    simp [Bubble.GetSelectedItem, h]

/-- Witness for C10 at a selected item, an empty selection, and a
selection of an unexpected type. -/
theorem C10_GetSelectedItem_total_witness :
    idleBubble.GetSelectedItem = sampleItem ∧
    noSelBubble.GetSelectedItem = Item.emptyItem ∧
    foreignSelBubble.GetSelectedItem = Item.emptyItem :=
  ⟨(C10_GetSelectedItem_total idleBubble).1 sampleItem rfl,
    (C10_GetSelectedItem_total noSelBubble).2.1 rfl,
    (C10_GetSelectedItem_total foreignSelBubble).2.2 "statusEntry" rfl⟩

/-- C1 (code bug): pressing the submit key in any prompt state executes
the pending action and clears the input, but the session state stays
the prompt state — the `submitInputKey` branch of `Bubble.Update`
(src/unnamed/part_000 lines 143–190) never assigns
`b.state = idleState`, unlike the `escapeKey` branch, so the mode
does not return to idle as the spec requires.  Shown here at submit
in `createFileState`, `createDirectoryState` and a confirmed
`deleteItemState`. -/
theorem C1_submit_keeps_prompt_mode :
    ((Bubble.Update envTriv createFileBubble (Msg.keyMsg KeyType.submitInputKey)).1.state
        = SessionState.createFileState ∧
      (Bubble.Update envTriv createFileBubble (Msg.keyMsg KeyType.submitInputKey)).1.input.value
        = "" ∧
      (Bubble.Update envTriv createFileBubble (Msg.keyMsg KeyType.submitInputKey)).1.input.focused
        = false ∧
      (Bubble.Update envTriv createFileBubble (Msg.keyMsg KeyType.submitInputKey)).2
        = [Cmd.sequentially (Cmd.createFile "a.txt") (Cmd.getDirectoryListing "." false),
            Cmd.statusMessage (statusMessageInfoStyle "Successfully created file"),
            Cmd.nilCmd]) ∧
    (Bubble.Update envTriv createDirBubble (Msg.keyMsg KeyType.submitInputKey)).1.state
        = SessionState.createDirectoryState ∧
    (Bubble.Update envTriv (deleteBubble "y") (Msg.keyMsg KeyType.submitInputKey)).1.state
        = SessionState.deleteItemState :=
  ⟨⟨rfl, rfl, rfl, rfl⟩, rfl, rfl⟩

/-- C6 (code bug): after the reachable sequence create-file key then
submit, the bubble sits in `createFileState` with a blurred input;
pressing escape there does not reach the escape handler (it is
guarded by `b.input.Focused()`), so the mode does not return to idle
as the spec requires for every non-idle mode. -/
theorem C6_escape_dead_after_submit :
    afterCreateKey.state = SessionState.createFileState ∧
    afterCreateKey.input.focused = true ∧
    afterSubmit.state = SessionState.createFileState ∧
    afterSubmit.input.focused = false ∧
    (Bubble.Update envTriv afterSubmit (Msg.keyMsg KeyType.escapeKey)).1.state
      = SessionState.createFileState ∧
    (Bubble.Update envTriv afterSubmit (Msg.keyMsg KeyType.escapeKey)).1.input.focused
      = false :=
  ⟨rfl, rfl, rfl, rfl, rfl, rfl⟩

/-- C7: an error event is surfaced as exactly one status message carrying
the error's message while the list items stay unchanged, and a `nil`
directory-listing result does not replace the current items (assuming
the collaborator list widget's own update keeps its items, which only
`SetItems` replaces). -/
theorem C7_error_single_status_items_kept (env : Env) (b : Bubble) (e : String)
    (hitems : EnvListKeepsItems env) :
    ((Bubble.Update env b (Msg.errorMsg e)).2
        = [Cmd.statusMessage (statusMessageErrorStyle e)] ∧
      (statusMessageErrorStyle e).text = e ∧
      (Bubble.Update env b (Msg.errorMsg e)).1.list.items = b.list.items) ∧
    (Bubble.Update env b (Msg.getDirectoryListingMsg Option.none)).1.list.items
      = b.list.items := by
  constructor
  · exact ⟨rfl, rfl, rfl⟩
  · obtain ⟨bl, bi, bs, bh⟩ := b
    cases bs
    all_goals simp [Bubble.Update, Bubble.stateDispatch]
    exact hitems _ _

/-- Witness for C7 at a concrete bubble, error text and collaborator
environment. -/
theorem C7_error_single_status_items_kept_witness :
    ((Bubble.Update envTriv idleBubble (Msg.errorMsg "boom")).2
        = [Cmd.statusMessage (statusMessageErrorStyle "boom")] ∧
      (statusMessageErrorStyle "boom").text = "boom" ∧
      (Bubble.Update envTriv idleBubble (Msg.errorMsg "boom")).1.list.items
        = idleBubble.list.items) ∧
    (Bubble.Update envTriv idleBubble (Msg.getDirectoryListingMsg Option.none)).1.list.items
      = idleBubble.list.items :=
  C7_error_single_status_items_kept envTriv idleBubble "boom" (fun _ _ => rfl)

/-- Commands emitted for the copy action (src/unnamed/part_000 lines
60–72): the sequenced mutate-then-refresh pair, then the status
message, then the dispatched widget command. -/
theorem update_copy_cmds (env : Env) (b : Bubble) (h : b.input.focused = false) :
    (Bubble.Update env b (Msg.keyMsg KeyType.copyItemKey)).2 =
      [Cmd.sequentially (Cmd.copyItem b.GetSelectedItem.fileName)
          (Cmd.getDirectoryListing CurrentDirectory b.showHidden),
        Cmd.statusMessage (statusMessageInfoStyle "Successfully copied file"),
        dispatchCmd env (Msg.keyMsg KeyType.copyItemKey)
          { b with list := (b.list.NewStatusMessage
              (statusMessageInfoStyle "Successfully copied file")).1 }] := by
  simp [Bubble.Update, TextInput.Focused, h, stateDispatch_snd, copyItemCmd,
    getDirectoryListingCmd, ListModel.NewStatusMessage]

/-- Commands emitted for the zip action (src/unnamed/part_000 lines
73–85). -/
theorem update_zip_cmds (env : Env) (b : Bubble) (h : b.input.focused = false) :
    (Bubble.Update env b (Msg.keyMsg KeyType.zipItemKey)).2 =
      [Cmd.sequentially (Cmd.zipItem b.GetSelectedItem.fileName)
          (Cmd.getDirectoryListing CurrentDirectory b.showHidden),
        Cmd.statusMessage (statusMessageInfoStyle "Successfully zipped item"),
        dispatchCmd env (Msg.keyMsg KeyType.zipItemKey)
          { b with list := (b.list.NewStatusMessage
              (statusMessageInfoStyle "Successfully zipped item")).1 }] := by
  simp [Bubble.Update, TextInput.Focused, h, stateDispatch_snd, zipItemCmd,
    getDirectoryListingCmd, ListModel.NewStatusMessage]

/-- Commands emitted for the unzip action (src/unnamed/part_000 lines
86–98). -/
theorem update_unzip_cmds (env : Env) (b : Bubble) (h : b.input.focused = false) :
    (Bubble.Update env b (Msg.keyMsg KeyType.unzipItemKey)).2 =
      [Cmd.sequentially (Cmd.unzipItem b.GetSelectedItem.fileName)
          (Cmd.getDirectoryListing CurrentDirectory b.showHidden),
        Cmd.statusMessage (statusMessageInfoStyle "Successfully unzipped item"),
        dispatchCmd env (Msg.keyMsg KeyType.unzipItemKey)
          { b with list := (b.list.NewStatusMessage
              (statusMessageInfoStyle "Successfully unzipped item")).1 }] := by
  simp [Bubble.Update, TextInput.Focused, h, stateDispatch_snd, unzipItemCmd,
    getDirectoryListingCmd, ListModel.NewStatusMessage]

/-- Commands emitted on submit in `createFileState`
(src/unnamed/part_000 lines 147–159): pair first, status second. -/
theorem update_createFile_cmds (env : Env) (b : Bubble)
    (hst : b.state = SessionState.createFileState) :
    (Bubble.Update env b (Msg.keyMsg KeyType.submitInputKey)).2 =
      [Cmd.sequentially (Cmd.createFile b.input.value)
          (Cmd.getDirectoryListing CurrentDirectory b.showHidden),
        Cmd.statusMessage (statusMessageInfoStyle "Successfully created file"),
        dispatchCmd env (Msg.keyMsg KeyType.submitInputKey)
          { b with
            list := (b.list.NewStatusMessage
              (statusMessageInfoStyle "Successfully created file")).1,
            input := (b.input.Blur).Reset }] := by
  simp [Bubble.Update, hst, stateDispatch_snd, createFileCmd, getDirectoryListingCmd,
    TextInput.Value, ListModel.NewStatusMessage]

/-- Commands emitted on submit in `createDirectoryState`
(src/unnamed/part_000 lines 160–172): status first, pair second. -/
theorem update_createDirectory_cmds (env : Env) (b : Bubble)
    (hst : b.state = SessionState.createDirectoryState) :
    (Bubble.Update env b (Msg.keyMsg KeyType.submitInputKey)).2 =
      [Cmd.statusMessage (statusMessageInfoStyle "Successfully created directory"),
        Cmd.sequentially (Cmd.createDirectory b.input.value)
          (Cmd.getDirectoryListing CurrentDirectory b.showHidden),
        dispatchCmd env (Msg.keyMsg KeyType.submitInputKey)
          { b with
            list := (b.list.NewStatusMessage
              (statusMessageInfoStyle "Successfully created directory")).1,
            input := (b.input.Blur).Reset }] := by
  simp [Bubble.Update, hst, stateDispatch_snd, createDirectoryCmd,
    getDirectoryListingCmd, TextInput.Value, ListModel.NewStatusMessage]

/-- Commands emitted on confirmed submit in `deleteItemState`
(src/unnamed/part_000 lines 173–189): status first, pair second. -/
theorem update_delete_cmds (env : Env) (b : Bubble)
    (hst : b.state = SessionState.deleteItemState)
    (hy : strToLower b.input.value = "y") :
    (Bubble.Update env b (Msg.keyMsg KeyType.submitInputKey)).2 =
      [Cmd.statusMessage (statusMessageInfoStyle "Successfully deleted item"),
        Cmd.sequentially (Cmd.deleteItem b.GetSelectedItem.fileName)
          (Cmd.getDirectoryListing CurrentDirectory b.showHidden),
        dispatchCmd env (Msg.keyMsg KeyType.submitInputKey)
          { b with
            list := (b.list.NewStatusMessage
              (statusMessageInfoStyle "Successfully deleted item")).1,
            input := (b.input.Blur).Reset }] := by
  simp [Bubble.Update, hst, hy, stateDispatch_snd, deleteItemCmd,
    getDirectoryListingCmd, TextInput.Value, ListModel.NewStatusMessage]

/-- Commands emitted on unconfirmed submit in `deleteItemState`: only
the dispatched widget command. -/
theorem update_delete_cancel_cmds (env : Env) (b : Bubble)
    (hst : b.state = SessionState.deleteItemState)
    (hy : ¬ strToLower b.input.value = "y") :
    (Bubble.Update env b (Msg.keyMsg KeyType.submitInputKey)).2 =
      [dispatchCmd env (Msg.keyMsg KeyType.submitInputKey)
        { b with input := (b.input.Blur).Reset }] := by
  simp [Bubble.Update, hst, hy, stateDispatch_snd, TextInput.Value]

/-- C2: for every mutating action — copy, zip, unzip, create file,
create directory, confirmed delete — the emitted command batch
contains the side-effecting operation sequenced strictly before a
directory refresh of the current directory (`tea.Sequentially`), that
refresh is the only one in the batch, and the mutation is the only
mutation in the batch. -/
theorem C2_mutation_then_refresh (env : Env) (b : Bubble)
    (henv : EnvWidgetCmdsOnly env) :
    (b.input.focused = false →
      (Cmd.sequentially (Cmd.copyItem b.GetSelectedItem.fileName)
          (Cmd.getDirectoryListing CurrentDirectory b.showHidden)
            ∈ (Bubble.Update env b (Msg.keyMsg KeyType.copyItemKey)).2 ∧
        refreshTotal (Bubble.Update env b (Msg.keyMsg KeyType.copyItemKey)).2 = 1 ∧
        mutationTotal (Bubble.Update env b (Msg.keyMsg KeyType.copyItemKey)).2 = 1) ∧
      (Cmd.sequentially (Cmd.zipItem b.GetSelectedItem.fileName)
          (Cmd.getDirectoryListing CurrentDirectory b.showHidden)
            ∈ (Bubble.Update env b (Msg.keyMsg KeyType.zipItemKey)).2 ∧
        refreshTotal (Bubble.Update env b (Msg.keyMsg KeyType.zipItemKey)).2 = 1 ∧
        mutationTotal (Bubble.Update env b (Msg.keyMsg KeyType.zipItemKey)).2 = 1) ∧
      (Cmd.sequentially (Cmd.unzipItem b.GetSelectedItem.fileName)
          (Cmd.getDirectoryListing CurrentDirectory b.showHidden)
            ∈ (Bubble.Update env b (Msg.keyMsg KeyType.unzipItemKey)).2 ∧
        refreshTotal (Bubble.Update env b (Msg.keyMsg KeyType.unzipItemKey)).2 = 1 ∧
        mutationTotal (Bubble.Update env b (Msg.keyMsg KeyType.unzipItemKey)).2 = 1)) ∧
    (b.state = SessionState.createFileState →
      Cmd.sequentially (Cmd.createFile b.input.value)
          (Cmd.getDirectoryListing CurrentDirectory b.showHidden)
            ∈ (Bubble.Update env b (Msg.keyMsg KeyType.submitInputKey)).2 ∧
        refreshTotal (Bubble.Update env b (Msg.keyMsg KeyType.submitInputKey)).2 = 1 ∧
        mutationTotal (Bubble.Update env b (Msg.keyMsg KeyType.submitInputKey)).2 = 1) ∧
    (b.state = SessionState.createDirectoryState →
      Cmd.sequentially (Cmd.createDirectory b.input.value)
          (Cmd.getDirectoryListing CurrentDirectory b.showHidden)
            ∈ (Bubble.Update env b (Msg.keyMsg KeyType.submitInputKey)).2 ∧
        refreshTotal (Bubble.Update env b (Msg.keyMsg KeyType.submitInputKey)).2 = 1 ∧
        mutationTotal (Bubble.Update env b (Msg.keyMsg KeyType.submitInputKey)).2 = 1) ∧
    (b.state = SessionState.deleteItemState → strToLower b.input.value = "y" →
      Cmd.sequentially (Cmd.deleteItem b.GetSelectedItem.fileName)
          (Cmd.getDirectoryListing CurrentDirectory b.showHidden)
            ∈ (Bubble.Update env b (Msg.keyMsg KeyType.submitInputKey)).2 ∧
        refreshTotal (Bubble.Update env b (Msg.keyMsg KeyType.submitInputKey)).2 = 1 ∧
        mutationTotal (Bubble.Update env b (Msg.keyMsg KeyType.submitInputKey)).2 = 1) := by
  refine ⟨fun h => ⟨?_, ?_, ?_⟩, fun hst => ?_, fun hst => ?_, fun hst hy => ?_⟩
  · rw [update_copy_cmds env b h]
    have hw := widgetOnly_counts (dispatchCmd_widgetOnly henv
      (Msg.keyMsg KeyType.copyItemKey)
      { b with list := (b.list.NewStatusMessage
          (statusMessageInfoStyle "Successfully copied file")).1 })
    simp [refreshTotal, mutationTotal, Cmd.refreshCount, Cmd.mutationCount,
      hw.1, hw.2.1]
  · rw [update_zip_cmds env b h]
    have hw := widgetOnly_counts (dispatchCmd_widgetOnly henv
      (Msg.keyMsg KeyType.zipItemKey)
      { b with list := (b.list.NewStatusMessage
          (statusMessageInfoStyle "Successfully zipped item")).1 })
    simp [refreshTotal, mutationTotal, Cmd.refreshCount, Cmd.mutationCount,
      hw.1, hw.2.1]
  · rw [update_unzip_cmds env b h]
    have hw := widgetOnly_counts (dispatchCmd_widgetOnly henv
      (Msg.keyMsg KeyType.unzipItemKey)
      { b with list := (b.list.NewStatusMessage
          (statusMessageInfoStyle "Successfully unzipped item")).1 })
    simp [refreshTotal, mutationTotal, Cmd.refreshCount, Cmd.mutationCount,
      hw.1, hw.2.1]
  · rw [update_createFile_cmds env b hst]
    have hw := widgetOnly_counts (dispatchCmd_widgetOnly henv
      (Msg.keyMsg KeyType.submitInputKey)
      { b with
        list := (b.list.NewStatusMessage
          (statusMessageInfoStyle "Successfully created file")).1,
        input := (b.input.Blur).Reset })
    simp [refreshTotal, mutationTotal, Cmd.refreshCount, Cmd.mutationCount,
      hw.1, hw.2.1]
  · rw [update_createDirectory_cmds env b hst]
    have hw := widgetOnly_counts (dispatchCmd_widgetOnly henv
      (Msg.keyMsg KeyType.submitInputKey)
      { b with
        list := (b.list.NewStatusMessage
          (statusMessageInfoStyle "Successfully created directory")).1,
        input := (b.input.Blur).Reset })
    simp [refreshTotal, mutationTotal, Cmd.refreshCount, Cmd.mutationCount,
      hw.1, hw.2.1]
  · rw [update_delete_cmds env b hst hy]
    have hw := widgetOnly_counts (dispatchCmd_widgetOnly henv
      (Msg.keyMsg KeyType.submitInputKey)
      { b with
        list := (b.list.NewStatusMessage
          (statusMessageInfoStyle "Successfully deleted item")).1,
        input := (b.input.Blur).Reset })
    simp [refreshTotal, mutationTotal, Cmd.refreshCount, Cmd.mutationCount,
      hw.1, hw.2.1]

/-- Witness for C2 at concrete inputs: the copy action on `idleBubble`
and the confirmed delete on `deleteBubble "y"`. -/
theorem C2_mutation_then_refresh_witness :
    (Cmd.sequentially (Cmd.copyItem "a.txt") (Cmd.getDirectoryListing "." false)
        ∈ (Bubble.Update envTriv idleBubble (Msg.keyMsg KeyType.copyItemKey)).2 ∧
      refreshTotal (Bubble.Update envTriv idleBubble (Msg.keyMsg KeyType.copyItemKey)).2 = 1 ∧
      mutationTotal (Bubble.Update envTriv idleBubble (Msg.keyMsg KeyType.copyItemKey)).2 = 1) ∧
    (Cmd.sequentially (Cmd.deleteItem "a.txt") (Cmd.getDirectoryListing "." false)
        ∈ (Bubble.Update envTriv (deleteBubble "y") (Msg.keyMsg KeyType.submitInputKey)).2 ∧
      refreshTotal (Bubble.Update envTriv (deleteBubble "y") (Msg.keyMsg KeyType.submitInputKey)).2 = 1 ∧
      mutationTotal (Bubble.Update envTriv (deleteBubble "y") (Msg.keyMsg KeyType.submitInputKey)).2 = 1) :=
  ⟨((C2_mutation_then_refresh envTriv idleBubble
      ⟨fun _ _ => rfl, fun _ _ => rfl⟩).1 rfl).1,
    (C2_mutation_then_refresh envTriv (deleteBubble "y")
      ⟨fun _ _ => rfl, fun _ _ => rfl⟩).2.2.2 rfl rfl⟩

/-- C3 counterexample: at the concrete input — submit in
`createDirectoryState` with entered text "newdir" — the claim "the
status message follows the mutate-and-refresh pair" is false: the
first status message in the emitted batch occurs at index 0, strictly
before the first command carrying a mutation (index 1), so
`statusFollowsPair` is false there. -/
theorem C3_status_order_counterexample :
    statusFollowsPair
        (Bubble.Update envTriv createDirBubble (Msg.keyMsg KeyType.submitInputKey)).2
      = false ∧
    (Bubble.Update envTriv createDirBubble (Msg.keyMsg KeyType.submitInputKey)).2 =
      [Cmd.statusMessage (statusMessageInfoStyle "Successfully created directory"),
        Cmd.sequentially (Cmd.createDirectory "newdir")
          (Cmd.getDirectoryListing "." false),
        Cmd.nilCmd] :=
  ⟨rfl, rfl⟩

/-- C3 (amended): for copy, zip, unzip and create-file the status
message immediately follows the mutate-and-refresh pair in the
emitted batch, but for create-directory and confirmed delete the
source appends the status message first, so there the status message
immediately precedes the pair. -/
theorem C3_status_message_order (env : Env) (b : Bubble) :
    (b.input.focused = false →
      ((Bubble.Update env b (Msg.keyMsg KeyType.copyItemKey)).2.take 2 =
        [Cmd.sequentially (Cmd.copyItem b.GetSelectedItem.fileName)
            (Cmd.getDirectoryListing CurrentDirectory b.showHidden),
          Cmd.statusMessage (statusMessageInfoStyle "Successfully copied file")]) ∧
      ((Bubble.Update env b (Msg.keyMsg KeyType.zipItemKey)).2.take 2 =
        [Cmd.sequentially (Cmd.zipItem b.GetSelectedItem.fileName)
            (Cmd.getDirectoryListing CurrentDirectory b.showHidden),
          Cmd.statusMessage (statusMessageInfoStyle "Successfully zipped item")]) ∧
      ((Bubble.Update env b (Msg.keyMsg KeyType.unzipItemKey)).2.take 2 =
        [Cmd.sequentially (Cmd.unzipItem b.GetSelectedItem.fileName)
            (Cmd.getDirectoryListing CurrentDirectory b.showHidden),
          Cmd.statusMessage (statusMessageInfoStyle "Successfully unzipped item")])) ∧
    (b.state = SessionState.createFileState →
      (Bubble.Update env b (Msg.keyMsg KeyType.submitInputKey)).2.take 2 =
        [Cmd.sequentially (Cmd.createFile b.input.value)
            (Cmd.getDirectoryListing CurrentDirectory b.showHidden),
          Cmd.statusMessage (statusMessageInfoStyle "Successfully created file")]) ∧
    (b.state = SessionState.createDirectoryState →
      (Bubble.Update env b (Msg.keyMsg KeyType.submitInputKey)).2.take 2 =
        [Cmd.statusMessage (statusMessageInfoStyle "Successfully created directory"),
          Cmd.sequentially (Cmd.createDirectory b.input.value)
            (Cmd.getDirectoryListing CurrentDirectory b.showHidden)]) ∧
    (b.state = SessionState.deleteItemState → strToLower b.input.value = "y" →
      (Bubble.Update env b (Msg.keyMsg KeyType.submitInputKey)).2.take 2 =
        [Cmd.statusMessage (statusMessageInfoStyle "Successfully deleted item"),
          Cmd.sequentially (Cmd.deleteItem b.GetSelectedItem.fileName)
            (Cmd.getDirectoryListing CurrentDirectory b.showHidden)]) := by
  refine ⟨fun h => ⟨?_, ?_, ?_⟩, fun hst => ?_, fun hst => ?_, fun hst hy => ?_⟩
  · rw [update_copy_cmds env b h]; rfl
  · rw [update_zip_cmds env b h]; rfl
  · rw [update_unzip_cmds env b h]; rfl
  · rw [update_createFile_cmds env b hst]; rfl
  · rw [update_createDirectory_cmds env b hst]; rfl
  · rw [update_delete_cmds env b hst hy]; rfl

/-- Witness for the amended C3 at concrete inputs: copy on `idleBubble`
and submit on `createDirBubble`. -/
theorem C3_status_message_order_witness :
    ((Bubble.Update envTriv idleBubble (Msg.keyMsg KeyType.copyItemKey)).2.take 2 =
      [Cmd.sequentially (Cmd.copyItem "a.txt") (Cmd.getDirectoryListing "." false),
        Cmd.statusMessage (statusMessageInfoStyle "Successfully copied file")]) ∧
    ((Bubble.Update envTriv createDirBubble (Msg.keyMsg KeyType.submitInputKey)).2.take 2 =
      [Cmd.statusMessage (statusMessageInfoStyle "Successfully created directory"),
        Cmd.sequentially (Cmd.createDirectory "newdir")
          (Cmd.getDirectoryListing "." false)]) :=
  ⟨((C3_status_message_order envTriv idleBubble).1 rfl).1,
    (C3_status_message_order envTriv createDirBubble).2.2.1 rfl⟩

/-- Result bubble on unconfirmed submit in `deleteItemState`: the input
is blurred and reset, then handed to the text input's own update. -/
theorem update_delete_cancel_bubble (env : Env) (b : Bubble)
    (hst : b.state = SessionState.deleteItemState)
    (hy : ¬ strToLower b.input.value = "y") :
    (Bubble.Update env b (Msg.keyMsg KeyType.submitInputKey)).1 =
      { b with
        input := (env.inputUpdate ((b.input.Blur).Reset)
          (Msg.keyMsg KeyType.submitInputKey)).1 } := by
  simp [Bubble.Update, hst, hy, Bubble.stateDispatch, TextInput.Value]

/-- C4: pressing submit in `deleteItemState` issues a delete command if
and only if the entered confirmation text case-insensitively equals
"y" (the source compares `strings.ToLower` of the input against
"y"); for any other input no delete and no mutation at all is
issued, and the prompt is cancelled: the input is cleared and
blurred. -/
theorem C4_delete_confirmation (env : Env) (b : Bubble)
    (henv : EnvWidgetCmdsOnly env) (hblur : EnvInputInertWhenBlurred env)
    (hst : b.state = SessionState.deleteItemState) :
    (deleteTotal (Bubble.Update env b (Msg.keyMsg KeyType.submitInputKey)).2 = 1
        ↔ strToLower b.input.value = "y") ∧
    (¬ strToLower b.input.value = "y" →
      mutationTotal (Bubble.Update env b (Msg.keyMsg KeyType.submitInputKey)).2 = 0 ∧
      (Bubble.Update env b (Msg.keyMsg KeyType.submitInputKey)).1.input.value = "" ∧
      (Bubble.Update env b (Msg.keyMsg KeyType.submitInputKey)).1.input.focused = false) := by
  by_cases hy : strToLower b.input.value = "y"
  · have hcmds := update_delete_cmds env b hst hy
    have hw := widgetOnly_counts (dispatchCmd_widgetOnly henv
      (Msg.keyMsg KeyType.submitInputKey)
      { b with
        list := (b.list.NewStatusMessage
          (statusMessageInfoStyle "Successfully deleted item")).1,
        input := (b.input.Blur).Reset })
    refine ⟨?_, fun h => absurd hy h⟩
    rw [hcmds]
    simp [deleteTotal, Cmd.deleteCount, hw.2.2, hy]
  · have hcmds := update_delete_cancel_cmds env b hst hy
    have hb := update_delete_cancel_bubble env b hst hy
    have hw := widgetOnly_counts (dispatchCmd_widgetOnly henv
      (Msg.keyMsg KeyType.submitInputKey) { b with input := (b.input.Blur).Reset })
    have hinert : (env.inputUpdate ((b.input.Blur).Reset)
        (Msg.keyMsg KeyType.submitInputKey)).1 = (b.input.Blur).Reset :=
      hblur _ _ rfl
    refine ⟨?_, fun _ => ⟨?_, ?_, ?_⟩⟩
    · rw [hcmds]
      simp [deleteTotal, hw.2.2, hy]
    · rw [hcmds]
      simp [mutationTotal, hw.2.1]
    · rw [hb]
      simp only [TextInput.Blur, TextInput.Reset] at hinert
      simp [hinert, TextInput.Blur, TextInput.Reset]
    · rw [hb]
      simp only [TextInput.Blur, TextInput.Reset] at hinert
      simp [hinert, TextInput.Blur, TextInput.Reset]

/-- Witness for C4 at concrete inputs: confirmation text "Y" (delete
issued) and "n" (cancelled). -/
theorem C4_delete_confirmation_witness :
    (deleteTotal (Bubble.Update envTriv (deleteBubble "Y")
        (Msg.keyMsg KeyType.submitInputKey)).2 = 1
      ↔ strToLower (deleteBubble "Y").input.value = "y") ∧
    (¬ strToLower (deleteBubble "n").input.value = "y" →
      mutationTotal (Bubble.Update envTriv (deleteBubble "n")
        (Msg.keyMsg KeyType.submitInputKey)).2 = 0 ∧
      (Bubble.Update envTriv (deleteBubble "n")
        (Msg.keyMsg KeyType.submitInputKey)).1.input.value = "" ∧
      (Bubble.Update envTriv (deleteBubble "n")
        (Msg.keyMsg KeyType.submitInputKey)).1.input.focused = false) :=
  ⟨(C4_delete_confirmation envTriv (deleteBubble "Y")
      ⟨fun _ _ => rfl, fun _ _ => rfl⟩ (fun _ _ _ => rfl) rfl).1,
    (C4_delete_confirmation envTriv (deleteBubble "n")
      ⟨fun _ _ => rfl, fun _ _ => rfl⟩ (fun _ _ _ => rfl) rfl).2⟩

/-- The focus invariant of reachable bubbles: whenever the prompt input
is focused the session state is a prompt state; preserved by every
`Update` step. -/
theorem update_preserves_focus_inv (env : Env) (b : Bubble) (msg : Msg)
    (hInv : b.input.focused = true → b.state ≠ SessionState.idleState) :
    (Bubble.Update env b msg).1.input.focused = true →
    (Bubble.Update env b msg).1.state ≠ SessionState.idleState := by
  obtain ⟨bl, bi, bs, bh⟩ := b
  cases msg with
  | getDirectoryListingMsg o =>
    cases o <;> cases bs <;>
      simp_all [Bubble.Update, Bubble.stateDispatch, ListModel.SetItems]
  | copyToClipboardMsg s =>
    cases bs <;> simp_all [Bubble.Update, ListModel.NewStatusMessage]
  | errorMsg e =>
    cases bs <;> simp_all [Bubble.Update, ListModel.NewStatusMessage]
  | otherMsg t =>
    cases bs <;> simp_all [Bubble.Update, Bubble.stateDispatch]
  | keyMsg k =>
    by_cases hf : bi.focused <;> cases k <;> cases bs <;>
      simp_all [Bubble.Update, Bubble.stateDispatch, TextInput.Focused,
        TextInput.Focus, TextInput.Blur, TextInput.Reset, TextInput.withPlaceholder,
        TextInput.Value, ListModel.NewStatusMessage] <;>
      split_ifs <;>
      simp_all [Bubble.stateDispatch]

/-- While the prompt input is focused and the state is a prompt state,
every key other than escape and submit is handed to the text input:
the list is untouched and the only emitted command is the text
input's own. -/
theorem update_input_dispatch (env : Env) (b : Bubble) (k : KeyType)
    (hf : b.input.focused = true) (hs : b.state ≠ SessionState.idleState)
    (ke : k ≠ KeyType.escapeKey) (ks : k ≠ KeyType.submitInputKey) :
    (Bubble.Update env b (Msg.keyMsg k)).1.list = b.list ∧
    (Bubble.Update env b (Msg.keyMsg k)).1.input
      = (env.inputUpdate b.input (Msg.keyMsg k)).1 ∧
    (Bubble.Update env b (Msg.keyMsg k)).2
      = [(env.inputUpdate b.input (Msg.keyMsg k)).2] := by
  obtain ⟨bl, bi, bs, bh⟩ := b
  cases k <;> cases bs <;>
    simp_all [Bubble.Update, Bubble.stateDispatch, TextInput.Focused]

/-- C5 counterexample: at the concrete input — the focused create-file
prompt `createFileBubble` and the escape key — the key event IS
dispatched to the listing: the escape branch sets the state to idle
before the trailing state switch, so the very same key message is
forwarded to the list widget's update, observable both in the
changed list model and in the emitted list-widget command.  This
falsifies "while a prompt is active key events are dispatched to the
text input and not to the listing" as stated. -/
theorem C5_escape_reaches_listing_counterexample :
    createFileBubble.input.focused = true ∧
    createFileBubble.state = SessionState.createFileState ∧
    (Bubble.Update envProbe createFileBubble (Msg.keyMsg KeyType.escapeKey)).1.list
      ≠ createFileBubble.list ∧
    (Bubble.Update envProbe createFileBubble (Msg.keyMsg KeyType.escapeKey)).1.list.statusMessage
      = "probed" ∧
    (Bubble.Update envProbe createFileBubble (Msg.keyMsg KeyType.escapeKey)).2
      = [Cmd.widgetCmd "listProbe"] :=
  ⟨rfl, rfl, by decide, rfl, rfl⟩

/-- C5 (amended): at most one prompt is active at a time (the session
state is a single value, so the three prompt modes are mutually
exclusive, and the focus invariant "focused implies prompt state" is
preserved by every step); while a prompt is active, every key event
except escape and submit is dispatched to the text input and not to
the listing — the escape key, however, cancels the prompt and is then
forwarded to the listing by the trailing state switch. -/
theorem C5_single_prompt_and_dispatch (env : Env) (b : Bubble) (msg : Msg)
    (k : KeyType) :
    (¬(b.state = SessionState.createFileState ∧
        b.state = SessionState.createDirectoryState) ∧
      ¬(b.state = SessionState.createFileState ∧
        b.state = SessionState.deleteItemState) ∧
      ¬(b.state = SessionState.createDirectoryState ∧
        b.state = SessionState.deleteItemState)) ∧
    ((b.input.focused = true → b.state ≠ SessionState.idleState) →
      (Bubble.Update env b msg).1.input.focused = true →
      (Bubble.Update env b msg).1.state ≠ SessionState.idleState) ∧
    (b.input.focused = true → b.state ≠ SessionState.idleState →
      k ≠ KeyType.escapeKey → k ≠ KeyType.submitInputKey →
      (Bubble.Update env b (Msg.keyMsg k)).1.list = b.list ∧
      (Bubble.Update env b (Msg.keyMsg k)).1.input
        = (env.inputUpdate b.input (Msg.keyMsg k)).1 ∧
      (Bubble.Update env b (Msg.keyMsg k)).2
        = [(env.inputUpdate b.input (Msg.keyMsg k)).2]) := by
  refine ⟨⟨?_, ?_, ?_⟩, update_preserves_focus_inv env b msg,
    update_input_dispatch env b k⟩
  · rintro ⟨h1, h2⟩
    rw [h1] at h2
    simp at h2
  · rintro ⟨h1, h2⟩
    rw [h1] at h2
    simp at h2
  · rintro ⟨h1, h2⟩
    rw [h1] at h2
    simp at h2

/-- Witness for the amended C5: a navigation key ("j") arriving at the
focused create-file prompt is handed to the text input and leaves
the list untouched. -/
theorem C5_single_prompt_and_dispatch_witness :
    (Bubble.Update envTriv createFileBubble (Msg.keyMsg (KeyType.otherKey "j"))).1.list
        = createFileBubble.list ∧
    (Bubble.Update envTriv createFileBubble (Msg.keyMsg (KeyType.otherKey "j"))).1.input
        = (envTriv.inputUpdate createFileBubble.input
            (Msg.keyMsg (KeyType.otherKey "j"))).1 ∧
    (Bubble.Update envTriv createFileBubble (Msg.keyMsg (KeyType.otherKey "j"))).2
        = [(envTriv.inputUpdate createFileBubble.input
            (Msg.keyMsg (KeyType.otherKey "j"))).2] :=
  (C5_single_prompt_and_dispatch envTriv createFileBubble
      (Msg.keyMsg (KeyType.otherKey "j")) (KeyType.otherKey "j")).2.2
    rfl (by decide) (by decide) (by decide)
